import Mathlib

/-!
Verification development for the `ref-utils` grading harness.

The definitions below are a shallow embedding of the Python sources:
  * `src/ref_utils/utils.py`     (`decode_or_str`, `map_path_as_posix`)
  * `src/ref_utils/error.py`     (`RefUtilsError` hierarchy)
  * `src/ref_utils/process.py`   (`RestrictedUnpickler`, `_drop_and_execute`,
                                  `run`, `run_with_payload`)
  * `src/ref_utils/decorator.py` (registration decorators and `run_tests`)

Python strings are Lean `String`s, byte strings are `List Nat` (each entry
< 256), machine uids/gids are `Nat`.  Stateful OS interaction (credential
syscalls, pipe traffic, file writes, prints) is made explicit: credential
syscalls act on a `Creds` record, and `run_tests` returns the ordered list
of observable events it performed.  Fallible Python code is modelled with
`Except` / `Option`.
-/

namespace RefUtils

/-! ## Byte-level helpers (modelling Python `str`/`bytes` primitives) -/

/-- One hexadecimal digit, lower case, as Python uses in `\xHH` escapes. -/
def hexDigit (n : Nat) : Char :=
  if n < 10 then Char.ofNat (48 + n) else Char.ofNat (87 + n)

/-- Two-digit lower-case hex rendering of a byte. -/
def hex2 (b : Nat) : String :=
  String.mk [hexDigit (b / 16 % 16), hexDigit (b % 16)]

/-- Four-digit lower-case hex rendering (Python `\uXXXX` escapes). -/
def hex4 (n : Nat) : String :=
  String.mk [hexDigit (n / 4096 % 16), hexDigit (n / 256 % 16),
             hexDigit (n / 16 % 16), hexDigit (n % 16)]

/-- How CPython's `bytes.__repr__` renders a single byte, given the
quote byte chosen for the literal. -/
def pyByteEscape (quote : Nat) (b : Nat) : String :=
  if b = 0x5c then "\\\\"
  else if b = quote then "\\" ++ String.singleton (Char.ofNat quote)
  else if b = 9 then "\\t"
  else if b = 10 then "\\n"
  else if b = 13 then "\\r"
  else if 0x20 ≤ b ∧ b < 0x7f then String.singleton (Char.ofNat b)
  else "\\x" ++ hex2 b

/-- CPython's `repr` of a `bytes` object (`str(data)` for bytes data):
single quotes unless the data contains a single quote and no double
quote. -/
def pyBytesRepr (bs : List Nat) : String :=
  let quote : Nat := if bs.contains 0x27 ∧ ¬ bs.contains 0x22 then 0x22 else 0x27
  let q := String.singleton (Char.ofNat quote)
  "b" ++ q ++ String.join (bs.map (pyByteEscape quote)) ++ q

/-- UTF-8 encoding of one Unicode code point (Python `str.encode()` on a
single character). -/
def utf8EncodeCp (c : Nat) : List Nat :=
  if c < 0x80 then [c]
  else if c < 0x800 then [0xc0 + c / 64, 0x80 + c % 64]
  else if c < 0x10000 then [0xe0 + c / 4096, 0x80 + c / 64 % 64, 0x80 + c % 64]
  else [0xf0 + c / 262144, 0x80 + c / 4096 % 64, 0x80 + c / 64 % 64, 0x80 + c % 64]

/-- Python `str.encode()`: UTF-8 bytes of a string. -/
def pyEncode (s : String) : List Nat :=
  (s.data.map (fun c => utf8EncodeCp c.toNat)).flatten

/-- Decode one code point from the front of a strict UTF-8 byte stream;
returns the code point and the number of bytes consumed.  Rejects
overlong forms, surrogates and values above U+10FFFF, as Python's strict
`bytes.decode()` does. -/
def utf8DecodeOne : List Nat → Option (Nat × Nat)
  | [] => none
  | b1 :: rest =>
    if b1 < 0x80 then some (b1, 1)
    else if 0xc2 ≤ b1 ∧ b1 ≤ 0xdf then
      match rest with
      | b2 :: _ =>
        if 0x80 ≤ b2 ∧ b2 ≤ 0xbf then some ((b1 - 0xc0) * 64 + (b2 - 0x80), 2)
        else none
      | _ => none
    else if 0xe0 ≤ b1 ∧ b1 ≤ 0xef then
      match rest with
      | b2 :: b3 :: _ =>
        let lo2 : Nat := if b1 = 0xe0 then 0xa0 else 0x80
        let hi2 : Nat := if b1 = 0xed then 0x9f else 0xbf
        if lo2 ≤ b2 ∧ b2 ≤ hi2 ∧ 0x80 ≤ b3 ∧ b3 ≤ 0xbf then
          some ((b1 - 0xe0) * 4096 + (b2 - 0x80) * 64 + (b3 - 0x80), 3)
        else none
      | _ => none
    else if 0xf0 ≤ b1 ∧ b1 ≤ 0xf4 then
      match rest with
      | b2 :: b3 :: b4 :: _ =>
        let lo2 : Nat := if b1 = 0xf0 then 0x90 else 0x80
        let hi2 : Nat := if b1 = 0xf4 then 0x8f else 0xbf
        if lo2 ≤ b2 ∧ b2 ≤ hi2 ∧ 0x80 ≤ b3 ∧ b3 ≤ 0xbf ∧ 0x80 ≤ b4 ∧ b4 ≤ 0xbf then
          some ((b1 - 0xf0) * 262144 + (b2 - 0x80) * 4096 + (b3 - 0x80) * 64 + (b4 - 0x80), 4)
        else none
      | _ => none
    else none

/-- Fuelled strict UTF-8 decoding loop. -/
def utf8DecodeAux : Nat → List Nat → Option (List Char)
  | _, [] => some []
  | 0, _ :: _ => none
  | fuel + 1, l@(_ :: _) =>
    match utf8DecodeOne l with
    | none => none
    | some (cp, k) =>
      match utf8DecodeAux fuel (l.drop k) with
      | none => none
      | some cs => some (Char.ofNat cp :: cs)

/-- Python strict `bytes.decode()`: `some` of the decoded string on valid
UTF-8 input, `none` on invalid input. -/
def pyDecode? (bs : List Nat) : Option String :=
  (utf8DecodeAux bs.length bs).map String.mk

/-- A command-vector element after `map_path_as_posix`: a Python `str`
(paths have already been turned into their POSIX string) or `bytes`. -/
inductive PyArg where
  | str (s : String)
  | bytes (b : List Nat)
  deriving DecidableEq, Repr

/-- The byte sequence Python inspects for an argument: `e.encode()` for a
`str`, the bytes themselves for `bytes` (see `run_with_payload`). -/
def argBytes : PyArg → List Nat
  | .str s => pyEncode s
  | .bytes b => b

/-- `utils.decode_or_str`: identity on `str`; for `bytes`, UTF-8 decode
when valid, else Python's `str(data)` (the bytes repr).  Empty data gives
the empty string on both paths. -/
def decode_or_str : PyArg → String
  | .str s => s
  | .bytes b => if b = [] then "" else ((pyDecode? b).getD (pyBytesRepr b))

/-- Python `str(e)` on a command element: the string itself, or the bytes
repr (used when joining command vectors for error messages). -/
def pyStr : PyArg → String
  | .str s => s
  | .bytes b => pyBytesRepr b

/-- `' '.join([str(e) for e in cmd])` -/
def joinCmd (cmd : List PyArg) : String :=
  String.intercalate " " (cmd.map pyStr)

/-! ## Process credentials (`_drop_and_execute`, `src/ref_utils/process.py`) -/

/-- POSIX per-process credentials: real/effective/saved uid and gid plus
the supplementary group list. -/
structure Creds where
  ruid : Nat
  euid : Nat
  suid : Nat
  rgid : Nat
  egid : Nat
  sgid : Nat
  groups : List Nat
  deriving DecidableEq, Repr

/-- `os.setresgid(r, e, s)` (the worker is privileged, so the call
succeeds). -/
def setresgid (r e s : Nat) (c : Creds) : Creds :=
  { c with rgid := r, egid := e, sgid := s }

/-- `os.setresuid(r, e, s)`. -/
def setresuid (r e s : Nat) (c : Creds) : Creds :=
  { c with ruid := r, euid := e, suid := s }

/-- `os.setgroups(gs)`. -/
def setgroups (gs : List Nat) (c : Creds) : Creds :=
  { c with groups := gs }

/-- `os.getgroups()`. -/
def getgroups (c : Creds) : List Nat := c.groups

/-- The credential syscalls a worker can issue, in the order
`_drop_and_execute` issues them; used to state that the drop sequence
has a fixed shape. -/
inductive CredCall where
  | callSetresgid (r e s : Nat)
  | callSetgroups (gs : List Nat)
  | callSetresuid (r e s : Nat)
  deriving DecidableEq, Repr

/-- Effect of one credential syscall on the credential state. -/
def applyCredCall (c : Creds) : CredCall → Creds
  | .callSetresgid r e s => setresgid r e s c
  | .callSetgroups gs => setgroups gs c
  | .callSetresuid r e s => setresuid r e s c

/-- Effect of a syscall sequence, first call first. -/
def applyCredCalls (c : Creds) (calls : List CredCall) : Creds :=
  calls.foldl applyCredCall c

/-- The credential-drop body of `_drop_and_execute`, as the state
transformer the three syscalls compose to:

    os.setresgid(gid, gid, gid)
    groups = [g for g in os.getgroups() if g != 0]
    os.setgroups(groups)
    os.setresuid(uid, uid, uid)
-/
def dropCreds (uid gid : Nat) (c : Creds) : Creds :=
  let c1 := setresgid gid gid gid c
  let groups := (getgroups c1).filter (fun g => g ≠ 0)
  let c2 := setgroups groups c1
  setresuid uid uid uid c2

/-- The exact syscall trace `_drop_and_execute` issues before invoking
the caller-supplied operation, evaluated against the starting
credentials `c`. -/
def dropCredCalls (uid gid : Nat) (c : Creds) : List CredCall :=
  let c1 := setresgid gid gid gid c
  [ .callSetresgid gid gid gid,
    .callSetgroups ((getgroups c1).filter (fun g => g ≠ 0)),
    .callSetresuid uid uid uid ]

/-! ## Restricted unpickling (`RestrictedUnpickler`, `restricted_loads`) -/

/-- `RestrictedUnpickler.ALLOWED_MODULE_NAME`. -/
def ALLOWED_MODULE_NAME : List (String × String) :=
  [ ("subprocess", "CompletedProcess"),
    ("ref_utils.error", "RefUtilsProcessError"),
    ("ref_utils.error", "RefUtilsProcessTimeoutError"),
    ("ref_utils.error", "RefUtilsAssertionError"),
    ("ref_utils.error", "RefUtilsError") ]

/-- The message of the `RefUtilsError` that `find_class` raises for a
class outside the allow-list (the embedded `pickle.UnpicklingError`
renders as `module.name is forbidden`). -/
def findClassErrMsg (module name : String) : String :=
  "Failed to parse the output of the target during testing. " ++
  "This should not happen. Please inform the staff. (" ++
  module ++ "." ++ name ++ " is forbidden)"

/-- `RestrictedUnpickler.find_class`: returns the requested
(module, name) pair when it is on the allow-list, otherwise raises
`RefUtilsError` (modelled as `Except.error` carrying the message). -/
def find_class (module name : String) : Except String (String × String) :=
  if ALLOWED_MODULE_NAME.contains (module, name) then
    Except.ok (module, name)
  else
    Except.error (findClassErrMsg module name)

/-- A value on the pickle wire: the primitive shapes the allow-listed
classes are built from (argument vectors and message tuples appear as
dedicated list shapes). -/
inductive WireVal where
  | int (i : Int)
  | str (s : String)
  | bytes (b : List Nat)
  | bool (b : Bool)
  | none
  | argList (l : List PyArg)
  | strList (l : List String)
  deriving DecidableEq, Repr

/-- The payload objects the worker can place on the channel: the five
allow-listed classes with their constructor state, or any other Python
object, carried as its class's (module, name) pair plus opaque state. -/
inductive PyObject where
  | completedProcess (args : List PyArg) (returncode : Int)
      (stdout stderr : Option (List Nat))
  | refUtilsProcessError (cmd : String) (exitCode : Int)
      (stdout stderr : List Nat)
  | refUtilsProcessTimeoutError (cmd : String) (timeout : Nat)
  | refUtilsAssertionError (args : List String)
  | refUtilsError (args : List String)
  | foreign (module name : String) (state : List WireVal)
  deriving DecidableEq, Repr

/-- The class tag `pickle.dumps` records for an object. -/
def classOf : PyObject → String × String
  | .completedProcess .. => ("subprocess", "CompletedProcess")
  | .refUtilsProcessError .. => ("ref_utils.error", "RefUtilsProcessError")
  | .refUtilsProcessTimeoutError .. => ("ref_utils.error", "RefUtilsProcessTimeoutError")
  | .refUtilsAssertionError .. => ("ref_utils.error", "RefUtilsAssertionError")
  | .refUtilsError .. => ("ref_utils.error", "RefUtilsError")
  | .foreign module name _ => (module, name)

/-- Whether an object is an instance of one of the allow-listed classes. -/
def onAllowList (p : PyObject) : Bool :=
  ALLOWED_MODULE_NAME.contains (classOf p)

/-- A pickled payload as it crosses the channel: the class tag the
stream names plus the serialized constructor state. -/
structure Wire where
  module : String
  name : String
  state : List WireVal
  deriving DecidableEq, Repr

/-- Serialize an optional captured byte stream (`None` or `bytes`). -/
def optBytesToWire : Option (List Nat) → WireVal
  | Option.none => .none
  | some b => .bytes b

/-- Deserialize an optional captured byte stream. -/
def wireToOptBytes? : WireVal → Option (Option (List Nat))
  | .none => some Option.none
  | .bytes b => some (some b)
  | _ => none

/-- The constructor state `pickle.dumps` records for each payload
object. -/
def stateOf : PyObject → List WireVal
  | .completedProcess args rc out err =>
    [.argList args, .int rc, optBytesToWire out, optBytesToWire err]
  | .refUtilsProcessError cmd ec out err =>
    [.str cmd, .int ec, .bytes out, .bytes err]
  | .refUtilsProcessTimeoutError cmd t =>
    [.str cmd, .int t]
  | .refUtilsAssertionError args =>
    [.strList args]
  | .refUtilsError args =>
    [.strList args]
  | .foreign _ _ st => st

/-- `pickle.dumps` of a payload object: the class tag plus its state. -/
def pickle_dumps (p : PyObject) : Wire :=
  ⟨(classOf p).1, (classOf p).2, stateOf p⟩

/-- Reconstruct an instance of an allow-listed class from its serialized
state (what `pickle` does after `find_class` has handed it the class). -/
def reconstruct (module name : String) (st : List WireVal) :
    Option PyObject :=
  if module = "subprocess" ∧ name = "CompletedProcess" then
    match st with
    | [.argList args, .int rc, outW, errW] =>
      match wireToOptBytes? outW, wireToOptBytes? errW with
      | some out, some err => some (.completedProcess args rc out err)
      | _, _ => Option.none
    | _ => Option.none
  else if module = "ref_utils.error" ∧ name = "RefUtilsProcessError" then
    match st with
    | [.str cmd, .int ec, .bytes out, .bytes err] =>
      some (.refUtilsProcessError cmd ec out err)
    | _ => Option.none
  else if module = "ref_utils.error" ∧ name = "RefUtilsProcessTimeoutError" then
    match st with
    | [.str cmd, .int (Int.ofNat t)] => some (.refUtilsProcessTimeoutError cmd t)
    | _ => Option.none
  else if module = "ref_utils.error" ∧ name = "RefUtilsAssertionError" then
    match st with
    | [.strList args] => some (.refUtilsAssertionError args)
    | _ => Option.none
  else if module = "ref_utils.error" ∧ name = "RefUtilsError" then
    match st with
    | [.strList args] => some (.refUtilsError args)
    | _ => Option.none
  else Option.none

/-- Message of the error raised when an allow-listed class's recorded
state is malformed (pickle itself fails; distinct from the `find_class`
rejection). -/
def malformedStateMsg : String := "pickle data was truncated"

/-- `restricted_loads`: run the restricted decoder on one wire payload.
`find_class` is consulted for the class tag; a tag outside the
allow-list raises `RefUtilsError` and nothing is reconstructed. -/
def restricted_loads (w : Wire) : Except String PyObject :=
  match find_class w.module w.name with
  | .error e => .error e
  | .ok (module, name) =>
    match reconstruct module name w.state with
    | some p => .ok p
    | Option.none => .error malformedStateMsg

/-- The payload shapes the worker legitimately produces: instances of
the five allow-listed classes (everything except a foreign object). -/
def allowedShape : PyObject → Bool
  | .foreign .. => false
  | _ => true

/-! ## Error taxonomy (`src/ref_utils/error.py`) -/

/-- `signal.Signals(n).name` on Linux: the symbolic name of signal `n`,
`none` when `n` is not a defined signal number (Python raises
`ValueError` there). -/
def sigName : Nat → Option String
  | 1 => some "SIGHUP"
  | 2 => some "SIGINT"
  | 3 => some "SIGQUIT"
  | 4 => some "SIGILL"
  | 5 => some "SIGTRAP"
  | 6 => some "SIGABRT"
  | 7 => some "SIGBUS"
  | 8 => some "SIGFPE"
  | 9 => some "SIGKILL"
  | 10 => some "SIGUSR1"
  | 11 => some "SIGSEGV"
  | 12 => some "SIGUSR2"
  | 13 => some "SIGPIPE"
  | 14 => some "SIGALRM"
  | 15 => some "SIGTERM"
  | 16 => some "SIGSTKFLT"
  | 17 => some "SIGCHLD"
  | 18 => some "SIGCONT"
  | 19 => some "SIGSTOP"
  | 20 => some "SIGTSTP"
  | 21 => some "SIGTTIN"
  | 22 => some "SIGTTOU"
  | 23 => some "SIGURG"
  | 24 => some "SIGXCPU"
  | 25 => some "SIGXFSZ"
  | 26 => some "SIGVTALRM"
  | 27 => some "SIGPROF"
  | 28 => some "SIGWINCH"
  | 29 => some "SIGIO"
  | 30 => some "SIGPWR"
  | 31 => some "SIGSYS"
  | 34 => some "SIGRTMIN"
  | 64 => some "SIGRTMAX"
  | _ => none

/-- The rendered exit-code field of `RefUtilsProcessError.__init__`:
`f'{exit_code} ({signal.Signals(exit_code*-1).name})'` for a negative
exit code, `str(exit_code)` otherwise.  `none` models the `ValueError`
`signal.Signals` raises on an unknown signal number. -/
def exitCodeStr (exitCode : Int) : Option String :=
  if exitCode < 0 then
    (sigName (-exitCode).toNat).map
      (fun nm => toString exitCode ++ " (" ++ nm ++ ")")
  else
    some (toString exitCode)

/-- The `msg` field `RefUtilsProcessError.__init__` builds. -/
def processErrMsg (cmd : String) (ecStr : String)
    (stdout stderr : List Nat) : String :=
  "[!] Execution of " ++ cmd ++ " failed with exitcode " ++ ecStr ++ ".\n" ++
  "--------------------- STDOUT ---------------------\n" ++
  decode_or_str (.bytes stdout) ++
  "\n--------------------- STDERR ---------------------\n" ++
  decode_or_str (.bytes stderr)

/-- The `msg` field `RefUtilsProcessTimeoutError.__init__` builds:
`f'[!] Timeout error for: {cmd} (after {timeout}s)'`. -/
def timeoutErrMsg (cmd : String) (timeout : Nat) : String :=
  "[!] Timeout error for: " ++ cmd ++ " (after " ++ toString timeout ++ "s)"

/-- An exception escaping `run` (`src/ref_utils/process.py`), with the
fields its constructor stored. -/
inductive RunErr where
  /-- `RefUtilsProcessTimeoutError(cmd, timeout)` -/
  | timeoutErr (cmd : String) (timeout : Nat) (msg : String)
  /-- `RefUtilsProcessError(cmd, exit_code, stdout, stderr)` with the
  rendered exit-code field -/
  | processErr (cmd : String) (exitCode : Int) (ecStr : String)
      (stdout stderr : List Nat) (msg : String)
  /-- `RefUtilsError(msg)` (permission / OS errors) -/
  | refUtilsErr (msg : String)
  /-- the `ValueError` from `signal.Signals` on an unknown signal number -/
  | signalsValueError
  deriving DecidableEq, Repr

/-! ## The `run` wrapper (`src/ref_utils/process.py`) -/

/-- The keyword arguments of `run` that the wrapper itself inspects
(everything else is passed through to `subprocess.run`). -/
structure RunKwargs where
  timeout : Option Nat := Option.none
  check_signal : Option Bool := Option.none
  stdinGiven : Bool := false
  inputGiven : Bool := false
  envGiven : Bool := false
  deriving DecidableEq, Repr

/-- The timeout `run` passes to `subprocess.run`: the caller's, or the
default of 10 seconds when none was passed. -/
def resolveTimeout (kw : RunKwargs) : Nat :=
  kw.timeout.getD 10

/-- What `subprocess.run` itself does for one invocation — the
environment's contribution, supplied as an input to the model. -/
inductive SpOutcome where
  /-- process completed with this exit code and captured output -/
  | completed (returncode : Int) (stdout stderr : Option (List Nat))
  /-- `subprocess.TimeoutExpired` -/
  | timedOut
  /-- `subprocess.CalledProcessError` (`check=True` and nonzero exit) -/
  | calledProcessError (returncode : Int) (stdout stderr : List Nat)
  /-- `PermissionError` with this message -/
  | permissionDenied (msg : String)
  /-- other `OSError` with this errno and message -/
  | osError (errnoIsENOEXEC : Bool) (msg : String)
  deriving DecidableEq, Repr

/-- A successfully returned `subprocess.CompletedProcess`. -/
structure CompletedProc where
  args : List PyArg
  returncode : Int
  stdout : Option (List Nat)
  stderr : Option (List Nat)
  deriving DecidableEq, Repr

/-- The hint `run` appends for `OSError` with `errno.ENOEXEC`. -/
def enoexecHint : String :=
  "\nLooks like the file has the wrong format to be executed.\n" ++
  "Check whether it has a shebang and is of the expected type."

/-- The try/except body of `run` (`src/ref_utils/process.py`): the
command vector has already been passed through `map_path_as_posix`, the
timeout default has been resolved, and `check_signal` has been stripped
from the kwargs.  `out` is the behaviour of the underlying
`subprocess.run` call. -/
def runBody (cmd : List PyArg) (checkSignal : Bool) (timeout : Nat)
    (out : SpOutcome) : Except RunErr CompletedProc :=
  match out with
  | .completed rc stdout stderr =>
    if checkSignal ∧ rc < 0 then
      match exitCodeStr rc with
      | some ecStr =>
        .error (.processErr (joinCmd cmd) rc ecStr
          (stdout.getD []) (stderr.getD [])
          (processErrMsg (joinCmd cmd) ecStr (stdout.getD []) (stderr.getD [])))
      | Option.none => .error .signalsValueError
    else
      .ok ⟨cmd, rc, stdout, stderr⟩
  | .timedOut =>
    .error (.timeoutErr (joinCmd cmd) timeout (timeoutErrMsg (joinCmd cmd) timeout))
  | .calledProcessError rc stdout stderr =>
    match exitCodeStr rc with
    | some ecStr =>
      .error (.processErr (joinCmd cmd) rc ecStr stdout stderr
        (processErrMsg (joinCmd cmd) ecStr stdout stderr))
    | Option.none => .error .signalsValueError
  | .permissionDenied msg =>
    .error (.refUtilsErr ("Failed to execute: " ++ msg ++
      ".\nIs the target executable and has a correct shebang?:"))
  | .osError isENOEXEC msg =>
    .error (.refUtilsErr ("Failed to execute: " ++ msg ++ "." ++
      (if isENOEXEC then enoexecHint else "")))

/-- The `run` wrapper (default resolution plus the try/except body).
`RefUtilsProcessError` construction for a signal-terminated process uses
the signal's symbolic name. -/
def run (cmd : List PyArg) (kw : RunKwargs) (out : SpOutcome) :
    Except RunErr CompletedProc :=
  let checkSignal := (kw.check_signal.getD false)
  runBody cmd checkSignal (resolveTimeout kw) out

/-! ## `run_with_payload` null-byte validation (`src/ref_utils/process.py`) -/

/-- The message of the `RefUtilsError` raised for an embedded null
byte. -/
def nullByteMsg (e : PyArg) (i : Nat) : String :=
  "[!] Input \"" ++ decode_or_str e ++ "\" contains a null byte at offset " ++
  toString i ++ "!\n[!] Please remove the embedded null byte."

/-- The per-argument scan of `run_with_payload`: enumerate the
argument's bytes and raise at the first null byte, reporting its
offset. -/
def checkArgNull (e : PyArg) : Option String :=
  ((argBytes e).findIdx? (fun c => c = 0)).map (nullByteMsg e)

/-- The whole-vector scan of `run_with_payload`: arguments are checked
in order and the first offending argument raises. -/
def checkCmdNull : List PyArg → Option String
  | [] => Option.none
  | e :: rest =>
    match checkArgNull e with
    | some msg => some msg
    | Option.none => checkCmdNull rest

/-- `run_with_payload` up to and including the null-byte validation:
`error` models the `RefUtilsError` raised before any process is
spawned; `ok cmd` means validation passed and the vector is handed to
`run` (which spawns the external process). -/
def run_with_payload_validate (cmd : List PyArg) : Except String (List PyArg) :=
  match checkCmdNull cmd with
  | some msg => .error msg
  | Option.none => .ok cmd

/-! ## Test orchestration (`src/ref_utils/decorator.py`) -/

/-- A decimal number `mant · 10^(-exp)`: the scores flowing through the
harness (Python floats whose repr is their terminating decimal
expansion). -/
structure DecFloat where
  mant : Int
  exp : Nat
  deriving DecidableEq, Repr

/-- Python's repr of such a float (`1.0`, `0.5`, `-2.25`, ...), which is
what `json.dumps` emits for it. -/
def pyFloatRepr (d : DecFloat) : String :=
  if d.exp = 0 then toString d.mant ++ ".0"
  else
    let digits := toString d.mant.natAbs
    let digits := String.mk (List.replicate (d.exp + 1 - digits.length) (Char.ofNat 48)) ++ digits
    let intLen := digits.length - d.exp
    (if d.mant < 0 then "-" else "") ++
      String.mk (digits.data.take intLen) ++ "." ++ String.mk (digits.data.drop intLen)

/-- An exception escaping a registered check, as `run_tests`
distinguishes them. -/
inductive PyExc where
  | refUtilsExc (msg : String)
  | keyboardInterrupt
  | otherExc (typeName : String)
  deriving DecidableEq, Repr

/-- A value returned by a registered check: a `bool`, a `TestResult`
(success flag plus optional score), or a value of any other type
(carried as the text `f-string` formatting produces for its type). -/
inductive PyVal where
  | pyBool (b : Bool)
  | pyTestResult (success : Bool) (score : Option DecFloat)
  | pyOtherVal (typeName : String)
  deriving DecidableEq, Repr

/-- What one invocation of a registered check does: return a value or
raise. -/
inductive CheckRes where
  | retVal (v : PyVal)
  | raised (e : PyExc)
  deriving DecidableEq, Repr

/-- A registered check: an identifier (so traces can record which
callable was invoked) and its behaviour when called. -/
structure Check where
  id : Nat
  res : CheckRes
  deriving DecidableEq, Repr

/-- `_Task`: the per-group registration record (the group's name is the
registry key). -/
structure PyTask where
  env_tests : List Check := []
  submission_test : Option Check := Option.none
  extended_submission_test : Option Check := Option.none
  deriving DecidableEq, Repr

/-- `__registered_tasks`: a Python dict, i.e. an insertion-ordered
association list keyed by group name. -/
abbrev Registry := List (String × PyTask)

/-- Dict lookup. -/
def regLookup (reg : Registry) (nm : String) : Option PyTask :=
  (reg.find? (fun p => p.1 = nm)).map (fun p => p.2)

/-- In-place update of one group's record (key order preserved). -/
def regUpdate (reg : Registry) (nm : String) (tk : PyTask) : Registry :=
  reg.map (fun p => if p.1 = nm then (nm, tk) else p)

/-- `if task_name not in __registered_tasks: __registered_tasks[task_name] = _Task(task_name)` -/
def regEnsure (reg : Registry) (nm : String) : Registry :=
  if (regLookup reg nm).isSome then reg
  else reg ++ [(nm, { env_tests := [] })]

/-- The `@environment_test` decorator's registration effect: append the
wrapped check to the group's ordered environment-check list. -/
def environment_test (reg : Registry) (nm : String) (c : Check) : Registry :=
  let reg := regEnsure reg nm
  match regLookup reg nm with
  | some g => regUpdate reg nm { g with env_tests := g.env_tests ++ [c] }
  | Option.none => reg

/-- Message raised on a second `@submission_test` for one group. -/
def subDupMsg : String :=
  "The @submission_test decorator can only be used once. " ++
  "Set the task_name kwarg to different values, if you have multiple tasks."

/-- Message raised on a second `@extended_submission_test` for one
group. -/
def extDupMsg : String :=
  "The @extended_submission_test decorator can only be used once. " ++
  "Set the task_name kwarg to different values, if you have multiple tasks."

/-- The `@submission_test` decorator's registration effect: the updated
registry, plus `some msg` when the call raises `RefUtilsError` (a
submission check was already registered for the group — the registry is
then left as it was). -/
def submission_test (reg : Registry) (nm : String) (c : Check) :
    Registry × Option String :=
  let reg := regEnsure reg nm
  match regLookup reg nm with
  | some g =>
    if g.submission_test.isSome then (reg, some subDupMsg)
    else (regUpdate reg nm { g with submission_test := some c }, Option.none)
  | Option.none => (reg, Option.none)

/-- The `@extended_submission_test` decorator's registration effect. -/
def extended_submission_test (reg : Registry) (nm : String) (c : Check) :
    Registry × Option String :=
  let reg := regEnsure reg nm
  match regLookup reg nm with
  | some g =>
    if g.extended_submission_test.isSome then (reg, some extDupMsg)
    else (regUpdate reg nm { g with extended_submission_test := some c }, Option.none)
  | Option.none => (reg, Option.none)

/-- `_TestResult`: the record serialized into the persisted result
file. -/
structure TestResultRec where
  task_name : String
  success : Bool
  score : Option DecFloat
  deriving DecidableEq, Repr

/-- JSON escaping of one character as CPython's `json.dumps` does with
its default `ensure_ascii=True`. -/
def jsonEscapeChar (c : Char) : String :=
  let n := c.toNat
  if n = 0x22 then "\\\""
  else if n = 0x5c then "\\\\"
  else if n = 8 then "\\b"
  else if n = 9 then "\\t"
  else if n = 10 then "\\n"
  else if n = 12 then "\\f"
  else if n = 13 then "\\r"
  else if 0x20 ≤ n ∧ n ≤ 0x7e then String.singleton c
  else if n < 0x10000 then "\\u" ++ hex4 n
  else
    "\\u" ++ hex4 (0xd800 + (n - 0x10000) / 1024) ++
    "\\u" ++ hex4 (0xdc00 + (n - 0x10000) % 1024)

/-- `json.dumps` of a string. -/
def jsonStr (s : String) : String :=
  "\"" ++ String.join (s.data.map jsonEscapeChar) ++ "\""

/-- `json.dumps` of an optional score. -/
def jsonScore : Option DecFloat → String
  | Option.none => "null"
  | some d => pyFloatRepr d

/-- `json.dumps(asdict(r))` for one `_TestResult`: an object whose keys
are the dataclass fields in declaration order — `task_name`, `success`,
`score`. -/
def dumpResult (r : TestResultRec) : String :=
  "\x7b\"task_name\": " ++ jsonStr r.task_name ++
  ", \"success\": " ++ (if r.success then "true" else "false") ++
  ", \"score\": " ++ jsonScore r.score ++ "\x7d"

/-- `json.dumps([asdict(e) for e in task_test_results])`. -/
def dumpResults (rs : List TestResultRec) : String :=
  "[" ++ String.intercalate ", " (rs.map dumpResult) ++ "]"

/-- The observable actions `run_tests` performs, in order. -/
inductive Event where
  /-- `TEST_RESULT_PATH.unlink(missing_ok=True)` -/
  | unlinkResultFile
  /-- `TEST_RESULT_PATH.write_text(results)` -/
  | writeResultFile (content : String)
  | printOkEv (s : String)
  | printErrEv (s : String)
  /-- an environment check was called -/
  | invokeEnv (id : Nat)
  /-- a submission check was called -/
  | invokeSub (id : Nat)
  /-- an extended submission check was called -/
  | invokeExt (id : Nat)
  /-- the hosting process was terminated with this status -/
  | exitProcess (code : Nat)
  deriving DecidableEq, Repr

/-- The running state of one `run_tests` call: the trace of performed
events and the accumulated `task_test_results` (the
`task_passed`/`all_tests_passed` booleans are threaded explicitly by
the functions below). -/
structure OrchSt where
  events : List Event
  results : List TestResultRec
  deriving DecidableEq, Repr

/-- Append one performed event. -/
def pushEv (st : OrchSt) (e : Event) : OrchSt :=
  { st with events := st.events ++ [e] }

/-- Append one `_TestResult`. -/
def pushRes (st : OrchSt) (r : TestResultRec) : OrchSt :=
  { st with results := st.results ++ [r] }

/-- `RefUtilsError` message for a non-`bool` environment-check result. -/
def envTypeMsg : String :=
  "Function with the @environment_test decorator must return a bool"

/-- `RefUtilsError` message for a group with environment checks but no
submission or extended check. -/
def envWithoutSubMsg : String :=
  "Using @environment_test without @submission_test or " ++
  "@extended_submission_test is not allowed"

/-- `RefUtilsError` message for a submission check returning neither
`bool` nor `TestResult` (`typeName` is the `f`-string rendering of
`type(ret)`). -/
def subTypeMsg (typeName : String) : String :=
  "Submission test returned unexpected type: " ++ typeName

/-- The environment-check loop of `run_tests`:

    for test in tests.env_tests:
        ret = test()
        if not isinstance(ret, bool):
            raise RefUtilsError(...)
        task_passed &= ret
        all_tests_passed &= ret

Every check in the list is invoked (there is no early exit on a `False`
result); an exception from a check, or a non-`bool` result, propagates.
Returns the state plus the updated `task_passed` and
`all_tests_passed`. -/
def runEnvTests (task_passed all_passed : Bool) (st : OrchSt) :
    List Check → Except (PyExc × OrchSt) (OrchSt × Bool × Bool)
  | [] => .ok (st, task_passed, all_passed)
  | t :: rest =>
    let st := pushEv st (.invokeEnv t.id)
    match t.res with
    | .raised e => .error (e, st)
    | .retVal (.pyBool b) => runEnvTests (task_passed && b) (all_passed && b) st rest
    | .retVal _ => .error (.refUtilsExc envTypeMsg, st)

/-- The guarded submission-check call of `run_tests`:

    try:
        ret = tests.submission_test()
    except RefUtilsError as e:
        print_err(str(e)); ret = False
    except KeyboardInterrupt:
        print_err('[-] Keyboard Interrupt'); ret = False

followed by the normalization of `ret` into a `_TestResult`.  Any other
exception propagates. -/
def runSubmission (nm : String) (sub : Check) (st : OrchSt) :
    Except (PyExc × OrchSt) (OrchSt × TestResultRec) :=
  let st := pushEv st (.invokeSub sub.id)
  let afterTry : Except (PyExc × OrchSt) (OrchSt × PyVal) :=
    match sub.res with
    | .retVal v => .ok (st, v)
    | .raised (.refUtilsExc m) => .ok (pushEv st (.printErrEv m), .pyBool false)
    | .raised .keyboardInterrupt =>
      .ok (pushEv st (.printErrEv "[-] Keyboard Interrupt"), .pyBool false)
    | .raised (.otherExc n) => .error (.otherExc n, st)
  match afterTry with
  | .error e => .error e
  | .ok (st, .pyBool b) => .ok (st, ⟨nm, b, Option.none⟩)
  | .ok (st, .pyTestResult s sc) => .ok (st, ⟨nm, s, sc⟩)
  | .ok (st, .pyOtherVal t) => .error (.refUtilsExc (subTypeMsg t), st)

/-- The trailing per-task report of `run_tests`:

    if not task_passed and has_multiple_tasks: print_err('[!] Task failed!')
    elif task_passed: print_ok('[+] Test passed')
-/
def taskTail (has_multiple task_passed : Bool) (st : OrchSt) : OrchSt :=
  if ¬ task_passed ∧ has_multiple then pushEv st (.printErrEv "[!] Task failed!")
  else if task_passed then pushEv st (.printOkEv "[+] Test passed")
  else st

/-- Leading steps of one task-loop iteration: the result-file unlink
and (with multiple tasks) the per-task banner. -/
def taskHeader (has_multiple : Bool) (nm : String) (st : OrchSt) : OrchSt :=
  let st := pushEv st .unlinkResultFile
  if has_multiple then
    pushEv st (.printOkEv ("[+] *** Running tests for task \"" ++ nm ++ "\" ***"))
  else st

/-- Rest of one task-loop iteration once the environment loop has
finished, given the resulting `task_passed`/`all_tests_passed`: skip or
run the submission phase, record the group's `_TestResult`, and print
the per-task report. -/
def afterEnv (has_multiple : Bool) (nm : String) (tk : PyTask) (st : OrchSt)
    (task_passed all_passed : Bool) : Except (PyExc × OrchSt) (OrchSt × Bool) :=
  if ¬ task_passed then
    let st := pushRes st ⟨nm, false, Option.none⟩
    let st := if has_multiple then pushEv st (.printErrEv "[!] Task failed!") else st
    .ok (st, all_passed)
  else
    let st := pushEv st (.printOkEv "[+] Environment tests passed")
    let st := pushEv st (.printOkEv "[+] Testing submission...")
    match tk.submission_test with
    | some sub =>
      match runSubmission nm sub st with
      | .error e => .error e
      | .ok (st, r) =>
        let st := pushRes st r
        let task_passed := task_passed && r.success
        let all_passed := all_passed && r.success
        .ok (taskTail has_multiple task_passed st, all_passed)
    | Option.none =>
      let st := pushRes st ⟨nm, true, Option.none⟩
      let st := pushEv st (.printOkEv "[+] No test found")
      .ok (taskTail has_multiple task_passed st, all_passed)

/-- One iteration of the `for task_name, tests in __registered_tasks.items()`
loop of `run_tests`.  Returns the state plus the updated
`all_tests_passed`; exceptions propagate with the events performed so
far. -/
def runTask (has_multiple : Bool) (all_passed : Bool) (st : OrchSt)
    (nm : String) (tk : PyTask) : Except (PyExc × OrchSt) (OrchSt × Bool) :=
  let st := taskHeader has_multiple nm st
  if tk.env_tests ≠ [] ∧ tk.submission_test = Option.none ∧
      tk.extended_submission_test = Option.none then
    .error (.refUtilsExc envWithoutSubMsg, st)
  else
    let st := pushEv st (.printOkEv "[+] Testing environment...")
    match runEnvTests true all_passed st tk.env_tests with
    | .error e => .error e
    | .ok (st, task_passed, all_passed) =>
      afterEnv has_multiple nm tk st task_passed all_passed

/-- The whole task loop of `run_tests`. -/
def runTaskList (has_multiple : Bool) (all_passed : Bool) (st : OrchSt) :
    List (String × PyTask) → Except (PyExc × OrchSt) (OrchSt × Bool)
  | [] => .ok (st, all_passed)
  | (nm, tk) :: rest =>
    match runTask has_multiple all_passed st nm tk with
    | .error e => .error e
    | .ok (st, all_passed) => runTaskList has_multiple all_passed st rest

/-- `run_tests()`: drive every registered group, then print the overall
verdict and persist the result list.  The returned pair is the final
state and `some exc` when an exception escaped (the result file is then
not written). -/
def run_tests (reg : Registry) : OrchSt × Option PyExc :=
  let st0 : OrchSt := ⟨[.printOkEv "[+] Running tests.."], []⟩
  let has_multiple := decide (1 < reg.length)
  match runTaskList has_multiple true st0 reg with
  | .error (e, st) => (st, some e)
  | .ok (st, all_passed) =>
    let st :=
      if ¬ all_passed then
        pushEv st (.printErrEv ("[!] Some tests failed! " ++
          "Please review your submission to avoid penalties during grading."))
      else
        pushEv st (.printOkEv "[+] All tests passed! Good job. Ready to submit!")
    let st := pushEv st (.writeResultFile (dumpResults st.results))
    (st, Option.none)

/-- The content of `TEST_RESULT_PATH` after a sequence of events
(`none` = the file does not exist). -/
def finalResultFile (events : List Event) : Option String :=
  events.foldl
    (fun acc e =>
      match e with
      | .unlinkResultFile => Option.none
      | .writeResultFile c => some c
      | _ => acc)
    Option.none

/-- The per-check boolean results of an environment-check list, when
every check returns normally with a `bool` (the only case in which the
loop completes without raising). -/
def envBools : List Check → Option (List Bool)
  | [] => some []
  | t :: rest =>
    match t.res with
    | .retVal (.pyBool b) => (envBools rest).map (fun bs => b :: bs)
    | _ => Option.none

/-- The state in which an orchestration step ended, whether it returned
or raised. -/
def resSt {β : Type} : Except (PyExc × OrchSt) (OrchSt × β) → OrchSt
  | .error (_, st) => st
  | .ok (st, _) => st

/-- Event kinds `run_tests` can actually emit: it never calls an
extended submission check and never terminates the hosting process. -/
def benignEv : Event → Bool
  | .invokeExt _ => false
  | .exitProcess _ => false
  | _ => true

/-- Whether an event is a process-termination action. -/
def isExitEv : Event → Bool
  | .exitProcess _ => true
  | _ => false

/-- Whether an event is an invocation of an extended submission
check. -/
def isExtInvokeEv : Event → Bool
  | .invokeExt _ => true
  | _ => false

/-- The text `run_tests` reports when it absorbs an exception of a
submission check: `str(e)` for `RefUtilsError`, the fixed interrupt
message for `KeyboardInterrupt`; `none` for exceptions it does not
catch. -/
def caughtMsg : PyExc → Option String
  | .refUtilsExc m => some m
  | .keyboardInterrupt => some "[-] Keyboard Interrupt"
  | .otherExc _ => Option.none

/-- A group whose first environment check returns `False` and whose
second environment check returns `True`, with a submission check
registered (exercises the environment-check loop). -/
def envFalseTrueCfg : Registry :=
  [("A", { env_tests := [⟨0, .retVal (.pyBool false)⟩, ⟨1, .retVal (.pyBool true)⟩],
           submission_test := some ⟨2, .retVal (.pyBool true)⟩ })]

/-- A single group `A` with one environment check returning `False` and
a registered submission check (the persisted-file scenario). -/
def singleEnvFailCfg : Registry :=
  [("A", { env_tests := [⟨0, .retVal (.pyBool false)⟩],
           submission_test := some ⟨1, .retVal (.pyBool true)⟩ })]

/-- A single failing group (submission check returns `False`): a run in
which not every group passes. -/
def failingSubCfg : Registry :=
  [("A", { env_tests := [], submission_test := some ⟨0, .retVal (.pyBool false)⟩ })]

/-! ## Theorems -/

/-- C2: for every target uid/gid pair, the worker body issues exactly
the syscall sequence setresgid(gid,gid,gid); setgroups(inherited set
with gid 0 removed); setresuid(uid,uid,uid), in that order, before the
caller-supplied operation runs; afterwards the effective and saved
uid/gid equal the targets and the supplementary groups are exactly the
inherited non-root set. -/
theorem c2_credential_drop_order (uid gid : Nat) (c : Creds) :
    dropCredCalls uid gid c =
      [CredCall.callSetresgid gid gid gid,
       CredCall.callSetgroups (c.groups.filter (fun g => g ≠ 0)),
       CredCall.callSetresuid uid uid uid] ∧
    applyCredCalls c (dropCredCalls uid gid c) = dropCreds uid gid c ∧
    (dropCreds uid gid c).euid = uid ∧
    (dropCreds uid gid c).suid = uid ∧
    (dropCreds uid gid c).egid = gid ∧
    (dropCreds uid gid c).sgid = gid ∧
    (dropCreds uid gid c).groups = c.groups.filter (fun g => g ≠ 0) :=
  ⟨rfl, rfl, rfl, rfl, rfl, rfl, rfl⟩

/-- C1: the restricted decoder reconstructs an object only when the
encoded class is on the fixed allow-list; any wire payload whose class
tag is off the list makes decoding raise `RefUtilsError` (with the
`find_class` rejection message) and reconstructs nothing; and every
payload of an allow-listed shape round-trips through the channel to a
value equal to the original. -/
theorem c1_restricted_unpickler :
    (∀ p : PyObject, allowedShape p = true →
        restricted_loads (pickle_dumps p) = .ok p) ∧
    (∀ w : Wire, ALLOWED_MODULE_NAME.contains (w.module, w.name) = false →
        restricted_loads w = .error (findClassErrMsg w.module w.name)) ∧
    (∀ (w : Wire) (q : PyObject), restricted_loads w = .ok q →
        ALLOWED_MODULE_NAME.contains (w.module, w.name) = true) := by
  refine ⟨?_, ?_, ?_⟩
  · intro p hp
    cases p with
    | completedProcess args rc out err => cases out <;> cases err <;> rfl
    | refUtilsProcessError cmd ec out err => rfl
    | refUtilsProcessTimeoutError cmd t => rfl
    | refUtilsAssertionError a => rfl
    | refUtilsError a => rfl
    | foreign m n st => simp [allowedShape] at hp
  · intro w hw
    have hm : (w.module, w.name) ∉ ALLOWED_MODULE_NAME := by simpa using hw
    simp [restricted_loads, find_class, hm]
  · intro w q h
    by_cases hc : ALLOWED_MODULE_NAME.contains (w.module, w.name) = true
    · exact hc
    · have hf : ALLOWED_MODULE_NAME.contains (w.module, w.name) = false :=
        Bool.eq_false_iff.mpr hc
      have hm : (w.module, w.name) ∉ ALLOWED_MODULE_NAME := by simpa using hf
      simp [restricted_loads, find_class, hm] at h

/-- Witness for C1: a concrete timeout-error payload round-trips, a
concrete `os.system` wire payload is rejected with the internal-failure
message, and a successfully decoded payload's class is on the
allow-list. -/
theorem c1_restricted_unpickler_witness :
    restricted_loads (pickle_dumps (PyObject.refUtilsProcessTimeoutError "sleep 99" 10)) =
      .ok (PyObject.refUtilsProcessTimeoutError "sleep 99" 10) ∧
    restricted_loads ⟨"os", "system", [.str "rm -rf /"]⟩ =
      .error (findClassErrMsg "os" "system") ∧
    ALLOWED_MODULE_NAME.contains
      ((Wire.mk "ref_utils.error" "RefUtilsError" [.strList ["m"]]).module,
       (Wire.mk "ref_utils.error" "RefUtilsError" [.strList ["m"]]).name) = true :=
  ⟨c1_restricted_unpickler.1 _ rfl,
   c1_restricted_unpickler.2.1 ⟨"os", "system", [.str "rm -rf /"]⟩ (by decide),
   c1_restricted_unpickler.2.2 ⟨"ref_utils.error", "RefUtilsError", [.strList ["m"]]⟩
     (.refUtilsError ["m"]) rfl⟩

/-- C7: registering a second submission check (or a second extended
submission check) for a group that already has one raises
`RefUtilsError` at the registration call itself (registration invokes
no check), and leaves the group's record — in particular its first
registered check — unchanged. -/
theorem c7_duplicate_registration :
    (∀ (reg : Registry) (nm : String) (g : PyTask) (c : Check),
        regLookup reg nm = some g → g.submission_test.isSome = true →
        submission_test reg nm c = (reg, some subDupMsg) ∧
        regLookup (submission_test reg nm c).1 nm = some g) ∧
    (∀ (reg : Registry) (nm : String) (g : PyTask) (c : Check),
        regLookup reg nm = some g → g.extended_submission_test.isSome = true →
        extended_submission_test reg nm c = (reg, some extDupMsg) ∧
        regLookup (extended_submission_test reg nm c).1 nm = some g) := by
  constructor
  · intro reg nm g c h hdup
    have : submission_test reg nm c = (reg, some subDupMsg) := by
      simp [submission_test, regEnsure, h, hdup]
    exact ⟨this, by rw [this]; exact h⟩
  · intro reg nm g c h hdup
    have : extended_submission_test reg nm c = (reg, some extDupMsg) := by
      simp [extended_submission_test, regEnsure, h, hdup]
    exact ⟨this, by rw [this]; exact h⟩

/-- Witness for C7: a group `A` that already has a submission check and
an extended submission check rejects a second registration of either,
and the originally registered checks survive. -/
theorem c7_duplicate_registration_witness :
    (submission_test
        [("A", { env_tests := [], submission_test := some ⟨0, .retVal (.pyBool true)⟩,
                 extended_submission_test := some ⟨1, .retVal (.pyBool true)⟩ })]
        "A" ⟨2, .retVal (.pyBool true)⟩ =
      ([("A", { env_tests := [], submission_test := some ⟨0, .retVal (.pyBool true)⟩,
                extended_submission_test := some ⟨1, .retVal (.pyBool true)⟩ })],
       some subDupMsg)) ∧
    (extended_submission_test
        [("A", { env_tests := [], submission_test := some ⟨0, .retVal (.pyBool true)⟩,
                 extended_submission_test := some ⟨1, .retVal (.pyBool true)⟩ })]
        "A" ⟨2, .retVal (.pyBool true)⟩ =
      ([("A", { env_tests := [], submission_test := some ⟨0, .retVal (.pyBool true)⟩,
                extended_submission_test := some ⟨1, .retVal (.pyBool true)⟩ })],
       some extDupMsg)) :=
  ⟨(c7_duplicate_registration.1
      [("A", { env_tests := [], submission_test := some ⟨0, .retVal (.pyBool true)⟩,
               extended_submission_test := some ⟨1, .retVal (.pyBool true)⟩ })]
      "A"
      { env_tests := [], submission_test := some ⟨0, .retVal (.pyBool true)⟩,
        extended_submission_test := some ⟨1, .retVal (.pyBool true)⟩ }
      ⟨2, .retVal (.pyBool true)⟩ rfl rfl).1,
   (c7_duplicate_registration.2
      [("A", { env_tests := [], submission_test := some ⟨0, .retVal (.pyBool true)⟩,
               extended_submission_test := some ⟨1, .retVal (.pyBool true)⟩ })]
      "A"
      { env_tests := [], submission_test := some ⟨0, .retVal (.pyBool true)⟩,
        extended_submission_test := some ⟨1, .retVal (.pyBool true)⟩ }
      ⟨2, .retVal (.pyBool true)⟩ rfl rfl).1⟩

/-- C8: for every command, the resolved timeout is the explicit one, or
10 seconds when none is passed, and a timeout expiry raises
`RefUtilsProcessTimeoutError` carrying the joined command string and
exactly that resolved timeout; with `check_signal` set, a command
terminating with a negative exit code raises `RefUtilsProcessError`
whose rendered exit-code field carries the symbolic name of that
signal. -/
theorem c8_timeout_and_signal_errors :
    (∀ (cmd : List PyArg) (kw : RunKwargs),
        run cmd kw .timedOut =
          .error (.timeoutErr (joinCmd cmd) (resolveTimeout kw)
            (timeoutErrMsg (joinCmd cmd) (resolveTimeout kw))) ∧
        resolveTimeout { kw with timeout := Option.none } = 10 ∧
        (∀ t : Nat, resolveTimeout { kw with timeout := some t } = t)) ∧
    (∀ (cmd : List PyArg) (kw : RunKwargs) (rc : Int)
        (out err : Option (List Nat)) (nm : String),
        kw.check_signal = some true → rc < 0 → sigName (-rc).toNat = some nm →
        run cmd kw (.completed rc out err) =
          .error (.processErr (joinCmd cmd) rc (toString rc ++ " (" ++ nm ++ ")")
            (out.getD []) (err.getD [])
            (processErrMsg (joinCmd cmd) (toString rc ++ " (" ++ nm ++ ")")
              (out.getD []) (err.getD [])))) := by
  constructor
  · intro cmd kw
    exact ⟨rfl, rfl, fun t => rfl⟩
  · intro cmd kw rc out err nm hcs hneg hsig
    simp [run, runBody, hcs, hneg, exitCodeStr, hsig]

/-- Witness for C8: `sleep 99` with no explicit timeout times out after
the default 10 seconds, and a `SIGKILL`-terminated command (exit code
-9) with `check_signal=True` raises an execution failure rendering
`-9 (SIGKILL)`. -/
theorem c8_timeout_and_signal_errors_witness :
    run [.str "sleep", .str "99"] { timeout := Option.none } .timedOut =
      .error (.timeoutErr "sleep 99" 10 (timeoutErrMsg "sleep 99" 10)) ∧
    run [.str "victim"] { check_signal := some true }
        (.completed (-9) (some [104]) (some [])) =
      .error (.processErr "victim" (-9) "-9 (SIGKILL)" [104] []
        (processErrMsg "victim" "-9 (SIGKILL)" [104] [])) := by
  constructor
  · have h := (c8_timeout_and_signal_errors.1 [.str "sleep", .str "99"]
      { timeout := Option.none }).1
    simpa [joinCmd, pyStr, resolveTimeout] using h
  · have h := c8_timeout_and_signal_errors.2 [.str "victim"]
      { check_signal := some true } (-9) (some [104]) (some []) "SIGKILL"
      rfl (by decide) (by decide)
    simpa [joinCmd, pyStr] using h

/-- Auxiliary: `findIdx?` (with start index `s`) finds exactly the first
position of a null byte. -/
theorem findIdx_first_zero (l : List Nat) (i s : Nat)
    (h : l[i]? = some 0) (hm : ∀ m, m < i → l[m]? ≠ some 0) :
    List.findIdx? (fun c => c = 0) l s = some (s + i) := by
  induction l generalizing i s with
  | nil => simp at h
  | cons a t ih =>
    cases i with
    | zero =>
      simp only [List.getElem?_cons_zero, Option.some.injEq] at h
      rw [List.findIdx?_cons, if_pos (by simp [h])]
      simp
    | succ j =>
      have ha : a ≠ 0 := by
        have h0 := hm 0 (Nat.succ_pos j)
        simpa using h0
      rw [List.findIdx?_cons, if_neg (by simp [ha])]
      have ht : t[j]? = some 0 := by simpa using h
      have htm : ∀ m, m < j → t[m]? ≠ some 0 := by
        intro m hmj
        have h1 := hm (m + 1) (Nat.succ_lt_succ hmj)
        simpa using h1
      rw [ih j (s + 1) ht htm]
      congr 1
      omega

/-- Auxiliary: an argument without a null byte passes the per-argument
scan. -/
theorem checkArgNull_eq_none (e : PyArg) (h : (argBytes e).contains 0 = false) :
    checkArgNull e = Option.none := by
  have h0 : (0 : Nat) ∉ argBytes e := by simpa using h
  unfold checkArgNull
  rw [List.findIdx?_eq_none_iff.mpr]
  · rfl
  · intro x hx
    simp only [decide_eq_false_iff_not]
    intro hx0
    exact h0 (hx0 ▸ hx)

/-- Auxiliary: the per-argument scan reports the first null byte's
offset. -/
theorem checkArgNull_first (e : PyArg) (i : Nat)
    (h : (argBytes e)[i]? = some 0)
    (hm : ∀ m, m < i → (argBytes e)[m]? ≠ some 0) :
    checkArgNull e = some (nullByteMsg e i) := by
  unfold checkArgNull
  rw [show (argBytes e).findIdx? (fun c => c = 0) = some (0 + i) from
      findIdx_first_zero (argBytes e) i 0 h hm]
  simp

/-- Auxiliary: the vector scan raises for the first offending argument. -/
theorem checkCmdNull_first (cmd : List PyArg) (k : Nat) (h1 : k < cmd.length) (i : Nat)
    (h : (argBytes (cmd.get ⟨k, h1⟩))[i]? = some 0)
    (hm : ∀ m, m < i → (argBytes (cmd.get ⟨k, h1⟩))[m]? ≠ some 0)
    (hpre : ∀ (j : Nat) (hj : j < k),
      (argBytes (cmd.get ⟨j, Nat.lt_trans hj h1⟩)).contains 0 = false) :
    checkCmdNull cmd = some (nullByteMsg (cmd.get ⟨k, h1⟩) i) := by
  induction cmd generalizing k with
  | nil => simp at h1
  | cons e rest ih =>
    cases k with
    | zero =>
      have he : checkArgNull e = some (nullByteMsg e i) :=
        checkArgNull_first e i (by simpa using h) (by simpa using hm)
      simp [checkCmdNull, he]
    | succ j =>
      have hefree : (argBytes e).contains 0 = false := by
        have := hpre 0 (Nat.succ_pos j)
        simpa using this
      have hrest := ih j (by simpa using Nat.lt_of_succ_lt_succ h1)
        (by simpa using h) (by simpa using hm)
        (by
          intro j' hj'
          have := hpre (j' + 1) (Nat.succ_lt_succ hj')
          simpa using this)
      simpa [checkCmdNull, checkArgNull_eq_none e hefree] using hrest

/-- Auxiliary: a vector with no embedded null bytes passes the whole
scan. -/
theorem checkCmdNull_eq_none (cmd : List PyArg)
    (h : ∀ e ∈ cmd, (argBytes e).contains 0 = false) :
    checkCmdNull cmd = Option.none := by
  induction cmd with
  | nil => rfl
  | cons e rest ih =>
    have he := checkArgNull_eq_none e (h e (by simp))
    have hr := ih (fun x hx => h x (by simp [hx]))
    simp [checkCmdNull, he, hr]

/-- C9: for every command argument vector, the first argument containing
an embedded null byte makes `run_with_payload` raise `RefUtilsError`
before any external process is spawned, with a message naming the
argument's decoded text and the exact offset of its first null byte;
a vector with no embedded null bytes passes the validation and is
handed on to `run`. -/
theorem c9_null_byte_validation :
    (∀ (cmd : List PyArg) (k i : Nat) (h1 : k < cmd.length),
        (argBytes (cmd.get ⟨k, h1⟩))[i]? = some 0 →
        (∀ m, m < i → (argBytes (cmd.get ⟨k, h1⟩))[m]? ≠ some 0) →
        (∀ (j : Nat) (hj : j < k),
          (argBytes (cmd.get ⟨j, Nat.lt_trans hj h1⟩)).contains 0 = false) →
        run_with_payload_validate cmd = .error (nullByteMsg (cmd.get ⟨k, h1⟩) i)) ∧
    (∀ cmd : List PyArg, (∀ e ∈ cmd, (argBytes e).contains 0 = false) →
        run_with_payload_validate cmd = .ok cmd) := by
  constructor
  · intro cmd k i h1 h hm hpre
    unfold run_with_payload_validate
    rw [checkCmdNull_first cmd k h1 i h hm hpre]
  · intro cmd h
    unfold run_with_payload_validate
    rw [checkCmdNull_eq_none cmd h]

/-- Witness for C9: the vector `["ok", "abc\x00def"]` is rejected with a
message citing offset 3 of the second argument's text, and `["ls"]`
passes validation. -/
theorem c9_null_byte_validation_witness :
    run_with_payload_validate [.str "ok", .str "abc\x00def"] =
      .error (nullByteMsg (.str "abc\x00def") 3) ∧
    run_with_payload_validate [.str "ls"] = .ok [.str "ls"] := by
  constructor
  · exact c9_null_byte_validation.1 [.str "ok", .str "abc\x00def"] 1 3 (by decide)
      (by decide)
      (by
        intro m hm
        interval_cases m <;> decide)
      (by
        intro j hj
        interval_cases j
        show (argBytes (.str "ok")).contains 0 = false
        decide)
  · exact c9_null_byte_validation.2 [.str "ls"] (by decide)

/-- Auxiliary: when every environment check returns a `bool`, the loop
invokes every check in list order and conjoins all results into
`task_passed` and `all_tests_passed`. -/
theorem runEnvTests_bools (l : List Check) (bs : List Bool) (tp ap : Bool) (st : OrchSt)
    (h : envBools l = some bs) :
    runEnvTests tp ap st l =
      .ok ({ st with events := st.events ++ l.map (fun t => Event.invokeEnv t.id) },
           tp && bs.all id, ap && bs.all id) := by
  induction l generalizing bs tp ap st with
  | nil =>
    simp only [envBools, Option.some.injEq] at h
    subst h
    simp [runEnvTests]
  | cons t rest ih =>
    obtain ⟨tid, res⟩ := t
    cases res with
    | raised e => simp [envBools] at h
    | retVal v =>
      cases v with
      | pyBool b =>
        simp only [envBools, Option.map_eq_some'] at h
        obtain ⟨bs', hbs', rfl⟩ := h
        show runEnvTests (tp && b) (ap && b) (pushEv st (Event.invokeEnv tid)) rest = _
        rw [ih bs' (tp && b) (ap && b) _ hbs']
        simp [pushEv, Bool.and_assoc]
      | pyTestResult s sc => simp [envBools] at h
      | pyOtherVal t' => simp [envBools] at h

/-- Auxiliary: the environment loop never touches the result list. -/
theorem runEnvTests_results (l : List Check) (tp ap : Bool) (st : OrchSt) :
    (resSt (runEnvTests tp ap st l)).results = st.results := by
  induction l generalizing tp ap st with
  | nil => rfl
  | cons t rest ih =>
    obtain ⟨tid, res⟩ := t
    cases res with
    | raised e => rfl
    | retVal v =>
      cases v with
      | pyBool b =>
        show (resSt (runEnvTests (tp && b) (ap && b) (pushEv st _) rest)).results = _
        rw [ih]
        rfl
      | pyTestResult s sc => rfl
      | pyOtherVal t' => rfl

/-- Auxiliary: the environment loop appends only environment-invocation
events, which are benign. -/
theorem runEnvTests_benign (l : List Check) (tp ap : Bool) (st : OrchSt)
    (h : st.events.all benignEv = true) :
    (resSt (runEnvTests tp ap st l)).events.all benignEv = true := by
  induction l generalizing tp ap st with
  | nil => simpa [runEnvTests, resSt] using h
  | cons t rest ih =>
    obtain ⟨tid, res⟩ := t
    have hp : (pushEv st (Event.invokeEnv tid)).events.all benignEv = true := by
      simp [pushEv, List.all_append, h, benignEv]
    cases res with
    | raised e => simpa [runEnvTests, resSt] using hp
    | retVal v =>
      cases v with
      | pyBool b =>
        show (resSt (runEnvTests (tp && b) (ap && b) (pushEv st _) rest)).events.all _ = _
        exact ih _ _ _ hp
      | pyTestResult s sc => simpa [runEnvTests, resSt] using hp
      | pyOtherVal t' => simpa [runEnvTests, resSt] using hp

/-- Auxiliary: the guarded submission call appends only benign events
(an invocation and possibly an error print). -/
theorem runSubmission_benign (nm : String) (sub : Check) (st : OrchSt)
    (h : st.events.all benignEv = true) :
    (resSt (runSubmission nm sub st)).events.all benignEv = true := by
  obtain ⟨sid, res⟩ := sub
  cases res with
  | retVal v =>
    cases v <;> simp [runSubmission, resSt, pushEv, List.all_append, h, benignEv]
  | raised e =>
    cases e <;> simp [runSubmission, resSt, pushEv, List.all_append, h, benignEv]

/-- Auxiliary: `runSubmission` never touches the result list, and its
produced record carries the group's name. -/
theorem runSubmission_ok (nm : String) (sub : Check) (st : OrchSt)
    (st' : OrchSt) (r : TestResultRec)
    (h : runSubmission nm sub st = .ok (st', r)) :
    st'.results = st.results ∧ r.task_name = nm := by
  obtain ⟨sid, res⟩ := sub
  cases res with
  | retVal v =>
    cases v with
    | pyBool b =>
      simp only [runSubmission] at h
      obtain ⟨h1, h2⟩ := Prod.mk.injEq .. ▸ (Except.ok.injEq .. ▸ h)
      subst h1; subst h2
      exact ⟨rfl, rfl⟩
    | pyTestResult s sc =>
      simp only [runSubmission] at h
      obtain ⟨h1, h2⟩ := Prod.mk.injEq .. ▸ (Except.ok.injEq .. ▸ h)
      subst h1; subst h2
      exact ⟨rfl, rfl⟩
    | pyOtherVal t' => simp [runSubmission] at h
  | raised e =>
    cases e with
    | refUtilsExc m =>
      simp only [runSubmission] at h
      obtain ⟨h1, h2⟩ := Prod.mk.injEq .. ▸ (Except.ok.injEq .. ▸ h)
      subst h1; subst h2
      exact ⟨rfl, rfl⟩
    | keyboardInterrupt =>
      simp only [runSubmission] at h
      obtain ⟨h1, h2⟩ := Prod.mk.injEq .. ▸ (Except.ok.injEq .. ▸ h)
      subst h1; subst h2
      exact ⟨rfl, rfl⟩
    | otherExc t' => simp [runSubmission] at h

/-- Auxiliary: the per-task report step only prints. -/
theorem taskTail_results (hm tp : Bool) (st : OrchSt) :
    (taskTail hm tp st).results = st.results := by
  unfold taskTail
  split
  · rfl
  · split <;> rfl

/-- Auxiliary: the per-task report step appends only benign events. -/
theorem taskTail_benign (hm tp : Bool) (st : OrchSt)
    (h : st.events.all benignEv = true) :
    (taskTail hm tp st).events.all benignEv = true := by
  unfold taskTail
  split
  · simp [pushEv, List.all_append, h, benignEv]
  · split
    · simp [pushEv, List.all_append, h, benignEv]
    · exact h

/-- Auxiliary: the unlink/banner step only records benign events. -/
theorem taskHeader_benign (hm : Bool) (nm : String) (st : OrchSt)
    (h : st.events.all benignEv = true) :
    (taskHeader hm nm st).events.all benignEv = true := by
  unfold taskHeader
  split <;> simp [pushEv, List.all_append, h, benignEv]

/-- Auxiliary: the unlink/banner step never touches the result list. -/
theorem taskHeader_results (hm : Bool) (nm : String) (st : OrchSt) :
    (taskHeader hm nm st).results = st.results := by
  unfold taskHeader
  split <;> rfl

/-- Auxiliary: the post-environment phase appends only benign events. -/
theorem afterEnv_benign (hm : Bool) (nm : String) (tk : PyTask) (st : OrchSt)
    (tp ap : Bool) (h : st.events.all benignEv = true) :
    (resSt (afterEnv hm nm tk st tp ap)).events.all benignEv = true := by
  unfold afterEnv
  split
  · split <;> simp [resSt, pushRes, pushEv, List.all_append, h, benignEv]
  · have h5 : (pushEv (pushEv st (.printOkEv "[+] Environment tests passed"))
        (.printOkEv "[+] Testing submission...")).events.all benignEv = true := by
      simp [pushEv, List.all_append, h, benignEv]
    cases hsub : tk.submission_test with
    | some sub =>
      simp only [hsub]
      have hx := runSubmission_benign nm sub
        (pushEv (pushEv st (.printOkEv "[+] Environment tests passed"))
          (.printOkEv "[+] Testing submission...")) h5
      generalize hr : runSubmission nm sub
        (pushEv (pushEv st (.printOkEv "[+] Environment tests passed"))
          (.printOkEv "[+] Testing submission...")) = rs
      rw [hr] at hx
      cases rs with
      | error pe => simpa [resSt] using hx
      | ok pr =>
        obtain ⟨st7, r⟩ := pr
        simp only [resSt] at hx
        simpa [resSt] using taskTail_benign _ _ _ (by simpa [pushRes] using hx)
    | none =>
      simp only [hsub]
      simpa [resSt] using taskTail_benign _ _ _
        (by simp [pushRes, pushEv, List.all_append, h, benignEv])

/-- Auxiliary: the post-environment phase, when it returns normally,
appends exactly one result record, named after the group. -/
theorem afterEnv_ok_results (hm : Bool) (nm : String) (tk : PyTask) (st : OrchSt)
    (tp ap : Bool) (st' : OrchSt) (ap' : Bool)
    (h : afterEnv hm nm tk st tp ap = .ok (st', ap')) :
    st'.results.map (fun r => r.task_name) =
      st.results.map (fun r => r.task_name) ++ [nm] := by
  unfold afterEnv at h
  split at h
  · split at h <;>
    · simp only [Except.ok.injEq, Prod.mk.injEq] at h
      obtain ⟨h1, h2⟩ := h
      subst h1
      simp [pushRes, pushEv]
  · cases hsub : tk.submission_test with
    | some sub =>
      rw [hsub] at h
      simp only at h
      generalize hr : runSubmission nm sub
        (pushEv (pushEv st (.printOkEv "[+] Environment tests passed"))
          (.printOkEv "[+] Testing submission...")) = rs at h
      cases rs with
      | error pe => simp at h
      | ok pr =>
        obtain ⟨st7, r⟩ := pr
        obtain ⟨hres7, hrnm⟩ := runSubmission_ok nm sub _ st7 r hr
        simp only [Except.ok.injEq, Prod.mk.injEq] at h
        obtain ⟨h1, h2⟩ := h
        subst h1
        simp [taskTail_results, pushRes, hres7, pushEv, hrnm]
    | none =>
      rw [hsub] at h
      simp only at h
      simp only [Except.ok.injEq, Prod.mk.injEq] at h
      obtain ⟨h1, h2⟩ := h
      subst h1
      simp [taskTail_results, pushRes, pushEv]

/-- Auxiliary: one task iteration appends only benign events, whether it
returns or raises. -/
theorem runTask_benign (hm ap : Bool) (st : OrchSt) (nm : String) (tk : PyTask)
    (h : st.events.all benignEv = true) :
    (resSt (runTask hm ap st nm tk)).events.all benignEv = true := by
  have hh : (taskHeader hm nm st).events.all benignEv = true :=
    taskHeader_benign hm nm st h
  have h3 : (pushEv (taskHeader hm nm st)
      (.printOkEv "[+] Testing environment...")).events.all benignEv = true := by
    simp [pushEv, List.all_append, hh, benignEv]
  have henvb := runEnvTests_benign tk.env_tests true ap
    (pushEv (taskHeader hm nm st) (.printOkEv "[+] Testing environment...")) h3
  simp only [runTask]
  split
  · simpa [resSt] using hh
  · generalize hr : runEnvTests true ap
      (pushEv (taskHeader hm nm st) (.printOkEv "[+] Testing environment..."))
      tk.env_tests = renv
    rw [hr] at henvb
    cases renv with
    | error pe => simpa [resSt] using henvb
    | ok trip =>
      obtain ⟨st4, tp, ap2⟩ := trip
      simp only [resSt] at henvb
      exact afterEnv_benign hm nm tk st4 tp ap2 henvb

/-- Auxiliary: a task iteration that returns normally appends exactly
one result record, named after the group. -/
theorem runTask_ok_results (hm ap : Bool) (st : OrchSt) (nm : String) (tk : PyTask)
    (st' : OrchSt) (ap' : Bool)
    (h : runTask hm ap st nm tk = .ok (st', ap')) :
    st'.results.map (fun r => r.task_name) =
      st.results.map (fun r => r.task_name) ++ [nm] := by
  simp only [runTask] at h
  split at h
  · simp at h
  · generalize hr : runEnvTests true ap
      (pushEv (taskHeader hm nm st) (.printOkEv "[+] Testing environment..."))
      tk.env_tests = renv at h
    cases renv with
    | error pe => simp at h
    | ok trip =>
      obtain ⟨st4, tp, ap2⟩ := trip
      have hres4 : st4.results = st.results := by
        have hx := runEnvTests_results tk.env_tests true ap
          (pushEv (taskHeader hm nm st) (.printOkEv "[+] Testing environment..."))
        rw [hr] at hx
        simpa [resSt, pushEv, taskHeader_results] using hx
      have := afterEnv_ok_results hm nm tk st4 tp ap2 st' ap' h
      rw [this, hres4]

/-- Auxiliary: the whole task loop appends only benign events. -/
theorem runTaskList_benign (hm : Bool) (l : List (String × PyTask)) (ap : Bool)
    (st : OrchSt) (h : st.events.all benignEv = true) :
    (resSt (runTaskList hm ap st l)).events.all benignEv = true := by
  induction l generalizing ap st with
  | nil => simpa [runTaskList, resSt] using h
  | cons p rest ih =>
    obtain ⟨nm, tk⟩ := p
    have hb := runTask_benign hm ap st nm tk h
    simp only [runTaskList]
    generalize hr : runTask hm ap st nm tk = rt
    rw [hr] at hb
    cases rt with
    | error pe => simpa [resSt] using hb
    | ok pr =>
      obtain ⟨st2, ap2⟩ := pr
      simp only [resSt] at hb
      exact ih ap2 st2 hb

/-- Auxiliary: a task loop that returns appends one result per task, in
order, each named after its group. -/
theorem runTaskList_ok_results (hm : Bool) (l : List (String × PyTask)) (ap : Bool)
    (st : OrchSt) (st' : OrchSt) (ap' : Bool)
    (h : runTaskList hm ap st l = .ok (st', ap')) :
    st'.results.map (fun r => r.task_name) =
      st.results.map (fun r => r.task_name) ++ l.map (fun p => p.1) := by
  induction l generalizing ap st with
  | nil =>
    simp only [runTaskList, Except.ok.injEq, Prod.mk.injEq] at h
    obtain ⟨h1, h2⟩ := h
    subst h1
    simp
  | cons p rest ih =>
    obtain ⟨nm, tk⟩ := p
    simp only [runTaskList] at h
    generalize hr : runTask hm ap st nm tk = rt at h
    cases rt with
    | error pe => simp at h
    | ok pr =>
      obtain ⟨st2, ap2⟩ := pr
      have h1 := runTask_ok_results hm ap st nm tk st2 ap2 hr
      have h2 := ih ap2 st2 h
      rw [h2, h1]
      simp

/-- Auxiliary: everything `run_tests` does is benign: it never invokes
an extended submission check and never terminates the process. -/
theorem run_tests_benign (reg : Registry) :
    ((run_tests reg).1).events.all benignEv = true := by
  simp only [run_tests]
  have h0 : (OrchSt.mk [Event.printOkEv "[+] Running tests.."] []).events.all benignEv
      = true := by decide
  have hb := runTaskList_benign (decide (1 < reg.length)) reg true
    ⟨[Event.printOkEv "[+] Running tests.."], []⟩ h0
  generalize hr : runTaskList (decide (1 < reg.length)) true
    ⟨[Event.printOkEv "[+] Running tests.."], []⟩ reg = rt
  rw [hr] at hb
  cases rt with
  | error pe => simpa [resSt] using hb
  | ok pr =>
    obtain ⟨st2, ap2⟩ := pr
    simp only [resSt] at hb
    by_cases hap : ap2 = true <;>
      simp [hap, pushEv, List.all_append, hb, benignEv]

/-- Auxiliary: after earlier events, a final write fixes the file's
content. -/
theorem finalResultFile_append_write (evs : List Event) (c : String) :
    finalResultFile (evs ++ [Event.writeResultFile c]) = some c := by
  simp [finalResultFile, List.foldl_append]

/-- C3 (counterexample): in a concrete run with group `A` whose first
environment check returns `False`, the second environment check is
still invoked — the loop does not halt — although the group is marked
failed. -/
theorem c3_env_check_continues_counterexample :
    Event.invokeEnv 1 ∈ (run_tests envFalseTrueCfg).1.events ∧
    (run_tests envFalseTrueCfg).1.results =
      [⟨"A", false, Option.none⟩] := by decide

/-- C3 (amended): when the environment checks of a group all return
booleans and at least one is `False`, the group is marked failed and
its submission check is skipped, but every remaining environment check
in the group's ordered list is still invoked — the recorded trace
contains an invocation event for each registered environment check and
none for the submission check. -/
theorem c3_env_false_marks_failed_but_continues
    (hm ap : Bool) (st : OrchSt) (nm : String) (tk : PyTask) (bs : List Bool)
    (henv : envBools tk.env_tests = some bs) (hfail : bs.all id = false)
    (hsub : tk.submission_test ≠ Option.none ∨
      tk.extended_submission_test ≠ Option.none) :
    runTask hm ap st nm tk =
      .ok ({ st with
              events := st.events ++ [Event.unlinkResultFile] ++
                (if hm then
                  [Event.printOkEv
                    ("[+] *** Running tests for task \"" ++ nm ++ "\" ***")]
                else []) ++
                [Event.printOkEv "[+] Testing environment..."] ++
                tk.env_tests.map (fun t => Event.invokeEnv t.id) ++
                (if hm then [Event.printErrEv "[!] Task failed!"] else []),
              results := st.results ++ [⟨nm, false, Option.none⟩] },
            false) := by
  have hguard : ¬ (tk.env_tests ≠ [] ∧ tk.submission_test = Option.none ∧
      tk.extended_submission_test = Option.none) := by
    rcases hsub with h | h <;> simp [h]
  simp only [runTask]
  rw [if_neg hguard]
  rw [runEnvTests_bools tk.env_tests bs true ap _ henv]
  simp only [afterEnv, hfail, Bool.and_false, Bool.true_and]
  cases hm <;>
    simp [taskHeader, pushEv, pushRes, List.append_assoc]

/-- Witness for C3's amended theorem: the two-check group of
`envFalseTrueCfg`, run as the only task, invokes both environment
checks, records a failed result, and skips the submission check. -/
theorem c3_env_false_marks_failed_but_continues_witness :
    runTask false true ⟨[], []⟩ "A"
      { env_tests := [⟨0, .retVal (.pyBool false)⟩, ⟨1, .retVal (.pyBool true)⟩],
        submission_test := some ⟨2, .retVal (.pyBool true)⟩ } =
      .ok (⟨[Event.unlinkResultFile,
             Event.printOkEv "[+] Testing environment...",
             Event.invokeEnv 0, Event.invokeEnv 1],
            [⟨"A", false, Option.none⟩]⟩, false) := by
  have h := c3_env_false_marks_failed_but_continues false true ⟨[], []⟩ "A"
    { env_tests := [⟨0, .retVal (.pyBool false)⟩, ⟨1, .retVal (.pyBool true)⟩],
      submission_test := some ⟨2, .retVal (.pyBool true)⟩ }
    [false, true] rfl rfl (Or.inl (by simp))
  simpa using h

/-- C5 (counterexample): a concrete run with a failing group finishes
normally and performs no process-termination action at all — `run_tests`
does not exit the hosting process with a non-zero status. -/
theorem c5_no_exit_counterexample :
    (run_tests failingSubCfg).1.results = [⟨"A", false, Option.none⟩] ∧
    (run_tests failingSubCfg).2 = Option.none ∧
    ((run_tests failingSubCfg).1.events).any isExitEv = false := by decide

/-- C5 (amended): `run_tests` never terminates the hosting process
itself — its event trace contains no exit action for any registry; the
overall verdict is communicated through the persisted file and the
printed summary only. -/
theorem c5_never_exits_process (reg : Registry) :
    ((run_tests reg).1.events).any isExitEv = false := by
  have hb := run_tests_benign reg
  rw [List.all_eq_true] at hb
  rw [List.any_eq_false]
  intro e he
  have := hb e he
  cases e <;> simp_all [benignEv, isExitEv]

/-- C4 (counterexample): for single group `A` with one failing
environment check, the persisted file names the group under the key
`task_name`, not `name`; the claimed content with key `name` is not
what is written. -/
theorem c4_result_file_counterexample :
    finalResultFile (run_tests singleEnvFailCfg).1.events =
      some "[\x7b\"task_name\": \"A\", \"success\": false, \"score\": null\x7d]" ∧
    finalResultFile (run_tests singleEnvFailCfg).1.events ≠
      some "[\x7b\"name\": \"A\", \"success\": false, \"score\": null\x7d]" ∧
    Event.invokeSub 1 ∉ (run_tests singleEnvFailCfg).1.events := by decide

/-- C4 (amended): any `run_tests` invocation that completes persists a
JSON array with exactly one object per registered group, in
registration order, each object having exactly the keys `task_name`,
`success` and `score`; for the single group `A` with one failing
environment check the file is exactly
`[{"task_name": "A", "success": false, "score": null}]` and `A`'s
submission check is never invoked. -/
theorem c4_result_file_shape :
    (∀ reg : Registry, (run_tests reg).2 = Option.none →
        (run_tests reg).1.results.map (fun r => r.task_name) =
          reg.map (fun p => p.1) ∧
        finalResultFile (run_tests reg).1.events =
          some (dumpResults (run_tests reg).1.results)) ∧
    (finalResultFile (run_tests singleEnvFailCfg).1.events =
        some "[\x7b\"task_name\": \"A\", \"success\": false, \"score\": null\x7d]" ∧
      Event.invokeSub 1 ∉ (run_tests singleEnvFailCfg).1.events) := by
  constructor
  · intro reg hnone
    cases hr : runTaskList (decide (1 < reg.length)) true
        ⟨[Event.printOkEv "[+] Running tests.."], []⟩ reg with
    | error pe =>
      obtain ⟨e, stE⟩ := pe
      simp [run_tests, hr] at hnone
    | ok pr =>
      obtain ⟨st2, ap2⟩ := pr
      have hnames := runTaskList_ok_results (decide (1 < reg.length)) reg true
        ⟨[Event.printOkEv "[+] Running tests.."], []⟩ st2 ap2 hr
      have hrun : run_tests reg =
          (pushEv
            (if ap2 = false then
              pushEv st2 (Event.printErrEv ("[!] Some tests failed! " ++
                "Please review your submission to avoid penalties during grading."))
            else
              pushEv st2 (Event.printOkEv "[+] All tests passed! Good job. Ready to submit!"))
            (Event.writeResultFile (dumpResults
              (if ap2 = false then
                pushEv st2 (Event.printErrEv ("[!] Some tests failed! " ++
                  "Please review your submission to avoid penalties during grading."))
              else
                pushEv st2 (Event.printOkEv "[+] All tests passed! Good job. Ready to submit!")).results)),
           Option.none) := by
        simp only [run_tests, hr]
        cases ap2 <;> simp [pushEv]
      rw [hrun]
      cases ap2 <;>
        simp_all [pushEv, finalResultFile, List.foldl_append, List.foldl_cons,
          List.foldl_nil, List.append_assoc]
  · decide

/-- Witness for C4's amended theorem: the single-group scenario
instantiates the general shape statement. -/
theorem c4_result_file_shape_witness :
    (run_tests singleEnvFailCfg).1.results.map (fun r => r.task_name) =
      singleEnvFailCfg.map (fun p => p.1) ∧
    finalResultFile (run_tests singleEnvFailCfg).1.events =
      some (dumpResults (run_tests singleEnvFailCfg).1.results) :=
  c4_result_file_shape.1 singleEnvFailCfg (by decide)

/-- C6: a `RefUtilsError` raised by a group's submission check, or a
keyboard interrupt received while it runs, is caught at that call site,
reported via an error print, recorded as a failed outcome for the
group, and the loop proceeds to the remaining groups; any other
exception escapes the loop — and `run_tests` then ends with that
exception, without writing the result file. -/
theorem c6_submission_exception_policy :
    (∀ (hm ap : Bool) (st : OrchSt) (nm : String) (tk : PyTask)
        (rest : List (String × PyTask)) (sub : Check) (bs : List Bool)
        (e : PyExc) (m : String),
        envBools tk.env_tests = some bs → bs.all id = true →
        tk.submission_test = some sub → sub.res = .raised e →
        caughtMsg e = some m →
        runTaskList hm ap st ((nm, tk) :: rest) =
          runTaskList hm false
            { st with
                events := st.events ++ [Event.unlinkResultFile] ++
                  (if hm then
                    [Event.printOkEv
                      ("[+] *** Running tests for task \"" ++ nm ++ "\" ***")]
                  else []) ++
                  [Event.printOkEv "[+] Testing environment..."] ++
                  tk.env_tests.map (fun t => Event.invokeEnv t.id) ++
                  [Event.printOkEv "[+] Environment tests passed",
                   Event.printOkEv "[+] Testing submission...",
                   Event.invokeSub sub.id,
                   Event.printErrEv m] ++
                  (if hm then [Event.printErrEv "[!] Task failed!"] else []),
                results := st.results ++ [⟨nm, false, Option.none⟩] }
            rest) ∧
    (∀ (hm ap : Bool) (st : OrchSt) (nm : String) (tk : PyTask)
        (rest : List (String × PyTask)) (sub : Check) (bs : List Bool)
        (t : String),
        envBools tk.env_tests = some bs → bs.all id = true →
        tk.submission_test = some sub → sub.res = .raised (.otherExc t) →
        runTaskList hm ap st ((nm, tk) :: rest) =
          .error (.otherExc t,
            { st with
                events := st.events ++ [Event.unlinkResultFile] ++
                  (if hm then
                    [Event.printOkEv
                      ("[+] *** Running tests for task \"" ++ nm ++ "\" ***")]
                  else []) ++
                  [Event.printOkEv "[+] Testing environment..."] ++
                  tk.env_tests.map (fun t => Event.invokeEnv t.id) ++
                  [Event.printOkEv "[+] Environment tests passed",
                   Event.printOkEv "[+] Testing submission...",
                   Event.invokeSub sub.id] })) ∧
    (∀ (reg : Registry) (e : PyExc) (st' : OrchSt),
        runTaskList (decide (1 < reg.length)) true
          ⟨[Event.printOkEv "[+] Running tests.."], []⟩ reg = .error (e, st') →
        run_tests reg = (st', some e)) := by
  refine ⟨?_, ?_, ?_⟩
  · intro hm ap st nm tk rest sub bs e m henv hall hsub hres hmsg
    obtain ⟨sid, sres⟩ := sub
    simp only at hres
    subst hres
    simp only [runTaskList, runTask]
    rw [if_neg (by simp [hsub])]
    rw [runEnvTests_bools tk.env_tests bs true ap _ henv]
    simp only [afterEnv, hall, hsub]
    cases e with
    | refUtilsExc mm =>
      simp only [caughtMsg, Option.some.injEq] at hmsg
      subst hmsg
      simp only [runSubmission]
      cases hm <;>
        simp [taskHeader, taskTail, pushEv, pushRes, List.append_assoc]
    | keyboardInterrupt =>
      simp only [caughtMsg, Option.some.injEq] at hmsg
      subst hmsg
      simp only [runSubmission]
      cases hm <;>
        simp [taskHeader, taskTail, pushEv, pushRes, List.append_assoc]
    | otherExc t => simp [caughtMsg] at hmsg
  · intro hm ap st nm tk rest sub bs t henv hall hsub hres
    obtain ⟨sid, sres⟩ := sub
    simp only at hres
    subst hres
    simp only [runTaskList, runTask]
    rw [if_neg (by simp [hsub])]
    rw [runEnvTests_bools tk.env_tests bs true ap _ henv]
    simp only [afterEnv, hall, hsub]
    simp only [runSubmission]
    cases hm <;>
      simp [taskHeader, pushEv, List.append_assoc]
  · intro reg e st' h
    simp [run_tests, h]

/-- Witness for C6: concrete one-group runs — a submission check raising
`RefUtilsError "boom"` is absorbed into a failed result with the error
printed; one raising an unclassified `ValueError` makes the loop (and
`run_tests`) end with that exception, with no result file written. -/
theorem c6_submission_exception_policy_witness :
    (runTaskList false true ⟨[], []⟩
        [("A", { env_tests := [],
                 submission_test := some ⟨5, .raised (.refUtilsExc "boom")⟩ })] =
      .ok (⟨[Event.unlinkResultFile,
             Event.printOkEv "[+] Testing environment...",
             Event.printOkEv "[+] Environment tests passed",
             Event.printOkEv "[+] Testing submission...",
             Event.invokeSub 5, Event.printErrEv "boom"],
            [⟨"A", false, Option.none⟩]⟩, false)) ∧
    (runTaskList false true ⟨[], []⟩
        [("A", { env_tests := [],
                 submission_test := some ⟨6, .raised (.otherExc "ValueError")⟩ })] =
      .error (.otherExc "ValueError",
        ⟨[Event.unlinkResultFile,
          Event.printOkEv "[+] Testing environment...",
          Event.printOkEv "[+] Environment tests passed",
          Event.printOkEv "[+] Testing submission...",
          Event.invokeSub 6], []⟩)) ∧
    run_tests
        [("A", { env_tests := [],
                 submission_test := some ⟨6, .raised (.otherExc "ValueError")⟩ })] =
      (⟨[Event.printOkEv "[+] Running tests..",
         Event.unlinkResultFile,
         Event.printOkEv "[+] Testing environment...",
         Event.printOkEv "[+] Environment tests passed",
         Event.printOkEv "[+] Testing submission...",
         Event.invokeSub 6], []⟩, some (.otherExc "ValueError")) := by
  refine ⟨?_, ?_, ?_⟩
  · have h := c6_submission_exception_policy.1 false true ⟨[], []⟩ "A"
      { env_tests := [], submission_test := some ⟨5, .raised (.refUtilsExc "boom")⟩ }
      [] ⟨5, .raised (.refUtilsExc "boom")⟩ [] (.refUtilsExc "boom") "boom"
      rfl rfl rfl rfl rfl
    simpa [runTaskList] using h
  · have h := c6_submission_exception_policy.2.1 false true ⟨[], []⟩ "A"
      { env_tests := [], submission_test := some ⟨6, .raised (.otherExc "ValueError")⟩ }
      [] ⟨6, .raised (.otherExc "ValueError")⟩ [] "ValueError"
      rfl rfl rfl rfl
    simpa [runTaskList] using h
  · exact c6_submission_exception_policy.2.2
      [("A", { env_tests := [],
               submission_test := some ⟨6, .raised (.otherExc "ValueError")⟩ })]
      (.otherExc "ValueError")
      ⟨[Event.printOkEv "[+] Running tests..",
        Event.unlinkResultFile,
        Event.printOkEv "[+] Testing environment...",
        Event.printOkEv "[+] Environment tests passed",
        Event.printOkEv "[+] Testing submission...",
        Event.invokeSub 6], []⟩
      (by rfl)

/-- C10: `run_tests` never invokes an extended submission check — no
run's trace contains an extended-check invocation — and a group that
has only an extended check (no regular submission check), after its
environment checks pass, is recorded with success `true` and score
`null` while the loop moves on, the extended check's score never
entering the persisted record. -/
theorem c10_extended_check_never_invoked :
    (∀ reg : Registry, ((run_tests reg).1.events).any isExtInvokeEv = false) ∧
    (∀ (hm ap : Bool) (st : OrchSt) (nm : String) (tk : PyTask)
        (rest : List (String × PyTask)) (ec : Check) (bs : List Bool),
        envBools tk.env_tests = some bs → bs.all id = true →
        tk.submission_test = Option.none →
        tk.extended_submission_test = some ec →
        runTaskList hm ap st ((nm, tk) :: rest) =
          runTaskList hm ap
            { st with
                events := st.events ++ [Event.unlinkResultFile] ++
                  (if hm then
                    [Event.printOkEv
                      ("[+] *** Running tests for task \"" ++ nm ++ "\" ***")]
                  else []) ++
                  [Event.printOkEv "[+] Testing environment..."] ++
                  tk.env_tests.map (fun t => Event.invokeEnv t.id) ++
                  [Event.printOkEv "[+] Environment tests passed",
                   Event.printOkEv "[+] Testing submission...",
                   Event.printOkEv "[+] No test found",
                   Event.printOkEv "[+] Test passed"],
                results := st.results ++ [⟨nm, true, Option.none⟩] }
            rest) := by
  constructor
  · intro reg
    have hb := run_tests_benign reg
    rw [List.all_eq_true] at hb
    rw [List.any_eq_false]
    intro e he
    have := hb e he
    cases e <;> simp_all [benignEv, isExtInvokeEv]
  · intro hm ap st nm tk rest ec bs henv hall hsub hext
    simp only [runTaskList, runTask]
    rw [if_neg (by simp [hext])]
    rw [runEnvTests_bools tk.env_tests bs true ap _ henv]
    simp only [afterEnv, hall, hsub]
    cases hm <;>
      simp [taskHeader, taskTail, pushEv, pushRes, List.append_assoc]

/-- Witness for C10: a group with only an extended check is reported as
a vacuous success with `null` score, the extended check never being
called. -/
theorem c10_extended_check_never_invoked_witness :
    ((run_tests
        [("A", { env_tests := [⟨0, .retVal (.pyBool true)⟩],
                 extended_submission_test := some ⟨7, .retVal (.pyTestResult true (some ⟨5, 1⟩))⟩ })]).1.events).any
      isExtInvokeEv = false ∧
    runTaskList false true ⟨[], []⟩
        [("A", { env_tests := [⟨0, .retVal (.pyBool true)⟩],
                 extended_submission_test := some ⟨7, .retVal (.pyTestResult true (some ⟨5, 1⟩))⟩ })] =
      .ok (⟨[Event.unlinkResultFile,
             Event.printOkEv "[+] Testing environment...",
             Event.invokeEnv 0,
             Event.printOkEv "[+] Environment tests passed",
             Event.printOkEv "[+] Testing submission...",
             Event.printOkEv "[+] No test found",
             Event.printOkEv "[+] Test passed"],
            [⟨"A", true, Option.none⟩]⟩, true) := by
  constructor
  · exact c10_extended_check_never_invoked.1
      [("A", { env_tests := [⟨0, .retVal (.pyBool true)⟩],
               extended_submission_test := some ⟨7, .retVal (.pyTestResult true (some ⟨5, 1⟩))⟩ })]
  · have h := c10_extended_check_never_invoked.2 false true ⟨[], []⟩ "A"
      { env_tests := [⟨0, .retVal (.pyBool true)⟩],
        extended_submission_test := some ⟨7, .retVal (.pyTestResult true (some ⟨5, 1⟩))⟩ }
      [] ⟨7, .retVal (.pyTestResult true (some ⟨5, 1⟩))⟩ [true]
      rfl rfl rfl rfl
    simpa [runTaskList] using h

end RefUtils
